import Mathlib

set_option linter.dupNamespace false

/-!
Shallow embedding of the kajappka rating service (Go, package main).

The store (a MongoDB collection of rating documents) is modelled as a list of
documents in insertion order.  The repository methods of
MongoRatingRepository are translated as pure functions on that list; each
also reports the store-level operations it issued, so that claims about
"no store call is made" can be stated.  Driver errors caused by an
unreachable database are environmental and are outside the model; the only
error paths kept are the ones the repository code itself produces
(validation failure in PutRating, and the cursor-decode failure in
GetAvgRatings, see below).

The HTTP pipeline of App.Initialize is translated as a function from a
request to a response plus the new store contents: gorilla mux runs the
middlewares in the order they were added (LogRequestsMiddleware, then
AuthenticationMiddleware, then ContentTypeMiddleware) around the matched
route handler.  The external verifier consulted by AuthenticateUser is a
parameter of type String -> Option Kajappka.User (token to outcome).
Go's http.Error sets the Content-Type header to "text/plain; charset=utf-8",
replacing anything a middleware put there.
-/

deriving instance DecidableEq for Except

namespace Kajappka

/-- User decoded from the external verifier's 200 response (AuthenticateUser). -/
structure User where
  ID : String
  Email : String
  Nickname : String
  ProfilePhoto : String
deriving DecidableEq, Repr

/-- Rating document: UserID (bson user_id, never serialized to JSON),
GameID (bson game_id), rating (bson rating, a Go int; the Go field is
spelled Rating, renamed here because a field spelled like its structure
shadows the type name in Lean). -/
structure Rating where
  UserID : String
  GameID : String
  rating : Int
deriving DecidableEq, Repr

/-- Rating.valid from the source: `r.Rating >= 1 && r.Rating <= 5`. -/
def Rating.valid (r : Rating) : Bool :=
  r.rating ≥ 1 && r.rating ≤ 5

/-- The MongoDB collection contents, as a list of documents in insertion order. -/
abbrev Store := List Rating

/-- Store-level operations issued against the MongoDB collection. -/
inductive StoreOp where
  | aggregateAvg
  | findOne (gameID userID : String)
  | replaceOne (gameID userID : String) (doc : Rating)
deriving DecidableEq, Repr

/-- The bson filter used by GetRating and PutRating:
a document matches when its game_id and user_id equal the given ones. -/
def matchesKey (gameID userID : String) (r : Rating) : Bool :=
  r.GameID == gameID && r.UserID == userID

/-- FindOne with the (game_id, user_id) filter: first matching document, if any. -/
def findOne (store : Store) (gameID userID : String) : Option Rating :=
  store.find? (matchesKey gameID userID)

/-- MongoRatingRepository.GetRating: FindOne on the (game_id, user_id) filter;
when no document matches (mongo.ErrNoDocuments) it returns the zero-value
rating carrying the requested game id, not an error. -/
def GetRating (store : Store) (gameID userID : String) :
    Except String Rating × List StoreOp :=
  match findOne store gameID userID with
  | none => (.ok { UserID := "", GameID := gameID, rating := 0 }, [.findOne gameID userID])
  | some rating => (.ok rating, [.findOne gameID userID])

/-- ReplaceOne with upsert on the (game_id, user_id) filter: replaces the
first matching document, or appends the new document when none matches. -/
def replaceOne (store : Store) (gameID userID : String) (doc : Rating) : Store :=
  match store with
  | [] => [doc]
  | r :: rest =>
      if matchesKey gameID userID r then doc :: rest
      else r :: replaceOne rest gameID userID doc

/-- MongoRatingRepository.PutRating: validates the rating first; when invalid
it returns the error without issuing any store operation, otherwise it
issues the ReplaceOne upsert keyed on (game_id, user_id). -/
def PutRating (store : Store) (rating : Rating) :
    Except String Store × List StoreOp :=
  if !rating.valid then (.error "Invalid rating update", [])
  else
    (.ok (replaceOne store rating.GameID rating.UserID rating),
     [.replaceOne rating.GameID rating.UserID rating])

/-- Distinct game ids present in the store (the keys of the aggregation's
group stage). -/
def gameIDs (store : Store) : List String :=
  (store.map Rating.GameID).dedup

/-- All rating values stored for one game, across all users. -/
def ratingsFor (store : Store) (g : String) : List Int :=
  (store.filter fun r => r.GameID == g).map Rating.rating

/-- Group-stage accumulator for one game: the avg accumulator holds the sum
and the count of the grouped rating values; their exact quotient
total / count is the double the $avg operator yields. -/
structure AvgEntry where
  game_id : String
  total : Int
  count : Nat
deriving DecidableEq, Repr

/-- The $group stage of the GetAvgRatings pipeline: one accumulator per
distinct game_id. -/
def groupAvg (store : Store) : List AvgEntry :=
  (gameIDs store).map fun g =>
    { game_id := g, total := (ratingsFor store g).sum, count := (ratingsFor store g).length }

/-- Descending order on average ratings for the $sort stage:
avgDesc a b holds when mean b is at most mean a, stated by cross
multiplication (the counts are positive for every grouped game). -/
def avgDesc (a b : AvgEntry) : Prop :=
  b.total * (a.count : Int) ≤ a.total * (b.count : Int)

instance : DecidableRel avgDesc := fun a b =>
  inferInstanceAs (Decidable (b.total * (a.count : Int) ≤ a.total * (b.count : Int)))

/-- Decoding one aggregation result document into the Go Rating struct,
whose rating field is an int: the mongo driver's int codec decodes the
BSON double produced by $avg only when it is integral (its default
registry has no truncation), and fails otherwise, which makes cur.All
return an error.  Exactly-integral means count divides total. -/
def decodeAvg (e : AvgEntry) : Except String Rating :=
  if e.total % (e.count : Int) = 0 then
    .ok { UserID := "", GameID := e.game_id, rating := e.total / (e.count : Int) }
  else .error "cannot decode double into an integer type without truncation"

/-- MongoRatingRepository.GetAvgRatings: aggregation pipeline grouping by
game_id with the $avg accumulator, then sorting by descending average,
then decoding every result document into the []Rating slice (cur.All). -/
def GetAvgRatings (store : Store) : Except String (List Rating) × List StoreOp :=
  (((groupAvg store).insertionSort avgDesc).mapM decodeAvg, [.aggregateAvg])

/-- HTTP method-and-path routes registered on the mux router. -/
inductive Route where
  | getRatings
  | getRating (id : String)
  | putRating (id : String)
deriving DecidableEq, Repr

/-- Request body of a PUT, as seen by json Decode: either well-formed JSON
carrying a rating value, or malformed JSON (whose decode error the handler
discards, leaving the zero-value Rating). -/
inductive RequestBody where
  | wellFormed (rating : Int)
  | malformed
deriving DecidableEq, Repr

/-- An inbound HTTP request on one of the three routes. -/
structure Request where
  route : Route
  authorization : String
  body : RequestBody
deriving DecidableEq, Repr

/-- Bodies written by the service: JSON-encoded data or http.Error text. -/
inductive ResponseBody where
  | jsonRating (r : Rating)
  | jsonRatingList (l : List Rating)
  | text (s : String)
deriving DecidableEq, Repr

/-- A finished HTTP response: status code, final Content-Type header, body. -/
structure Response where
  status : Nat
  contentType : String
  body : ResponseBody
deriving DecidableEq, Repr

/-- The response writer's header state when a handler runs: the value of the
Content-Type header, if one has been set. -/
structure ResponseWriter where
  contentType : Option String
deriving DecidableEq, Repr

/-- Go's http.Error: it sets Content-Type to text/plain (overriding any
previously set value), writes the status code and the message. -/
def httpError (_w : ResponseWriter) (msg : String) (code : Nat) : Response :=
  { status := code, contentType := "text/plain; charset=utf-8", body := .text msg }

/-- A 200 response whose body was written by json Encode; the Content-Type
is whatever header was set before the first write (Go would sniff the JSON
bytes as text/plain if none was set). -/
def jsonOk (w : ResponseWriter) (body : ResponseBody) : Response :=
  { status := 200, contentType := w.contentType.getD "text/plain; charset=utf-8", body := body }

/-- Decoding of the PUT body into the zero-initialized Rating variable:
a well-formed body fills the rating field; a malformed body leaves the
zero value (the decode error is discarded by the handler). -/
def decodeBody : RequestBody → Rating
  | .wellFormed n => { UserID := "", GameID := "", rating := n }
  | .malformed => { UserID := "", GameID := "", rating := 0 }

/-- App.getRatings: GetAvgRatings, 500 on repository error, otherwise the
averaged ratings encoded as JSON (an explicit empty slice when there are
none, so the body is an empty array and never null). -/
def getRatingsHandler (w : ResponseWriter) (store : Store) :
    Response × List StoreOp :=
  match GetAvgRatings store with
  | (.error _, ops) => (httpError w "Error" 500, ops)
  | (.ok ratings, ops) =>
      if ratings.length = 0 then (jsonOk w (.jsonRatingList []), ops)
      else (jsonOk w (.jsonRatingList ratings), ops)

/-- App.getRating: reads the authenticated User out of the request context
by an unchecked type assertion (modelled as the Option being none, which in
Go would panic, so the response is none in that case), then GetRating with
the route id and the user's id: 500 on repository error, otherwise the
rating encoded as JSON. -/
def getRatingHandler (w : ResponseWriter) (ctx : Option User) (id : String)
    (store : Store) : Option Response × List StoreOp :=
  match ctx with
  | none => (none, [])
  | some user =>
      match GetRating store id user.ID with
      | (.error _, ops) => (some (httpError w "Error" 500), ops)
      | (.ok rating, ops) => (some (jsonOk w (.jsonRating rating)), ops)

/-- App.putRating: reads the authenticated User from the context (unchecked
type assertion, as in getRating), decodes the body discarding any decode
error, overwrites GameID with the route id and UserID with the user's id,
calls PutRating (any error yields 400 Bad Request), and on success answers
by running the getRating handler on the same request. -/
def putRatingHandler (w : ResponseWriter) (ctx : Option User) (id : String)
    (body : RequestBody) (store : Store) :
    Option Response × Store × List StoreOp :=
  match ctx with
  | none => (none, store, [])
  | some user =>
      let decoded := decodeBody body
      let rating : Rating := { decoded with GameID := id, UserID := user.ID }
      match PutRating store rating with
      | (.error _, ops) => (some (httpError w "Error" 400), store, ops)
      | (.ok store1, ops) =>
          let rest := getRatingHandler w ctx id store1
          (rest.1, store1, ops ++ rest.2)

/-- Outcome of one request through the whole pipeline: the response (none
models a Go panic from a failed type assertion, which never happens, see
the safety theorem), the store contents afterwards, the store operations
issued, and whether a route handler body ran. -/
structure PipelineResult where
  response : Option Response
  store : Store
  ops : List StoreOp
  handlerInvoked : Bool
deriving DecidableEq, Repr

/-- The request pipeline configured by App.Initialize.  gorilla mux runs
the middlewares in registration order: LogRequestsMiddleware (logs, never
short-circuits; logging is outside the model), then
AuthenticationMiddleware (authenticates the Authorization header against
the external verifier, modelled by the authenticate parameter; on failure
it writes Forbidden with http.Error 403 and stops, the content-type
middleware and the handler never run; on success it stores the User in the
request context under the request-user key), then ContentTypeMiddleware
(adds Content-Type application/json to the still-empty response headers),
then the matched route handler. -/
def app (authenticate : String → Option User) (store : Store)
    (req : Request) : PipelineResult :=
  match authenticate req.authorization with
  | none =>
      { response := some (httpError { contentType := none } "Forbidden" 403)
        store := store
        ops := []
        handlerInvoked := false }
  | some user =>
      let w : ResponseWriter := { contentType := some "application/json" }
      match req.route with
      | .getRatings =>
          let res := getRatingsHandler w store
          { response := some res.1, store := store, ops := res.2, handlerInvoked := true }
      | .getRating id =>
          let res := getRatingHandler w (some user) id store
          { response := res.1, store := store, ops := res.2, handlerInvoked := true }
      | .putRating id =>
          let res := putRatingHandler w (some user) id req.body store
          { response := res.1, store := res.2.1, ops := res.2.2, handlerInvoked := true }

/-- Stores reachable through the service hold at most one document per
(game_id, user_id) pair: no two distinct documents share both keys. -/
def keyUnique (store : Store) : Prop :=
  store.Pairwise fun a b => ¬(a.GameID = b.GameID ∧ a.UserID = b.UserID)

theorem matchesKey_iff (gameID userID : String) (r : Rating) :
    matchesKey gameID userID r = true ↔ r.GameID = gameID ∧ r.UserID = userID := by
  simp [matchesKey]

theorem valid_eq_true (r : Rating) :
    r.valid = true ↔ 1 ≤ r.rating ∧ r.rating ≤ 5 := by
  simp [Rating.valid, ge_iff_le]

theorem getRating_isOk (store : Store) (g u : String) :
    ∃ r, GetRating store g u = (.ok r, [.findOne g u]) := by
  unfold GetRating
  cases findOne store g u <;> simp

theorem findOne_replaceOne_same (store : Store) (g u : String) (doc : Rating)
    (hd : matchesKey g u doc = true) :
    findOne (replaceOne store g u doc) g u = some doc := by
  induction store with
  | nil => simp [replaceOne, findOne, hd]
  | cons r rest ih =>
      by_cases hr : matchesKey g u r = true
      · simp [replaceOne, if_pos hr, findOne, hd]
      · simp only [replaceOne, if_neg hr, findOne]
        rw [List.find?_cons_of_neg _ hr]
        exact ih

theorem mem_replaceOne (store : Store) (g u : String) (doc b : Rating)
    (hb : b ∈ replaceOne store g u doc) : b = doc ∨ b ∈ store := by
  induction store with
  | nil =>
      simp [replaceOne] at hb
      exact .inl hb
  | cons r rest ih =>
      by_cases hr : matchesKey g u r = true
      · simp only [replaceOne, if_pos hr, List.mem_cons] at hb
        rcases hb with hb | hb
        · exact .inl hb
        · exact .inr (List.mem_cons_of_mem _ hb)
      · simp only [replaceOne, if_neg hr, List.mem_cons] at hb
        rcases hb with hb | hb
        · exact .inr (by simp [hb])
        · rcases ih hb with h | h
          · exact .inl h
          · exact .inr (List.mem_cons_of_mem _ h)

theorem keyUnique_replaceOne (store : Store) (g u : String) (doc : Rating)
    (hg : doc.GameID = g) (hu : doc.UserID = u) (hU : keyUnique store) :
    keyUnique (replaceOne store g u doc) := by
  induction store with
  | nil => simp [replaceOne, keyUnique]
  | cons r rest ih =>
      rcases List.pairwise_cons.mp hU with ⟨h1, h2⟩
      by_cases hr : matchesKey g u r = true
      · rcases (matchesKey_iff g u r).mp hr with ⟨hrg, hru⟩
        simp only [replaceOne, if_pos hr, keyUnique, List.pairwise_cons]
        refine ⟨fun b hb hkey => ?_, h2⟩
        exact h1 b hb ⟨hrg.trans (hg ▸ hkey.1), hru.trans (hu ▸ hkey.2)⟩
      · simp only [replaceOne, if_neg hr, keyUnique, List.pairwise_cons]
        refine ⟨fun b hb => ?_, ih h2⟩
        rcases mem_replaceOne rest g u doc b hb with rfl | hmem
        · intro hkey
          exact hr ((matchesKey_iff g u r).mpr ⟨hkey.1.trans hg, hkey.2.trans hu⟩)
        · exact h1 b hmem

theorem count_replaceOne (store : Store) (g u : String) (doc : Rating)
    (hd : matchesKey g u doc = true) (hU : keyUnique store) :
    ((replaceOne store g u doc).filter (matchesKey g u)).length = 1 := by
  induction store with
  | nil => simp [replaceOne, hd]
  | cons r rest ih =>
      rcases List.pairwise_cons.mp hU with ⟨h1, h2⟩
      by_cases hr : matchesKey g u r = true
      · have hrest : rest.filter (matchesKey g u) = [] := by
          refine List.filter_eq_nil_iff.mpr fun b hb hbm => ?_
          rcases (matchesKey_iff g u r).mp hr with ⟨hrg, hru⟩
          rcases (matchesKey_iff g u b).mp hbm with ⟨hbg, hbu⟩
          exact h1 b hb ⟨hrg.trans hbg.symm, hru.trans hbu.symm⟩
        simp [replaceOne, if_pos hr, List.filter_cons_of_pos hd, hrest]
      · simp only [replaceOne, if_neg hr]
        rw [List.filter_cons_of_neg hr]
        exact ih h2

/-- Claim C1, failing input: with two stored ratings 5 and 4 for the same
game by different users, the aggregation's average is 9/2, which is not an
integer, so decoding the result documents into the []Rating slice (whose
rating field is a Go int) fails and GetAvgRatings returns an error instead
of the entry carrying the arithmetic mean the claim promises. -/
theorem getAvgRatings_fractional_mean_errors :
    GetAvgRatings
        [{ UserID := "u1", GameID := "gameA", rating := 5 },
         { UserID := "u2", GameID := "gameA", rating := 4 }] =
      (.error "cannot decode double into an integer type without truncation",
       [.aggregateAvg]) := by
  decide

/-- Claim C2: a rating outside [1, 5] makes PutRating return the validation
error without issuing any store operation, and a PUT request with body
rating 7 gets a 400 response while the store is left unchanged. -/
theorem putRating_invalid_no_write (authenticate : String → Option User)
    (store : Store) (r : Rating) (token id : String) (u : User)
    (hr : ¬(1 ≤ r.rating ∧ r.rating ≤ 5)) (ha : authenticate token = some u) :
    PutRating store r = (.error "Invalid rating update", []) ∧
    app authenticate store { route := .putRating id, authorization := token, body := .wellFormed 7 } =
      { response := some { status := 400, contentType := "text/plain; charset=utf-8",
                           body := .text "Error" },
        store := store, ops := [], handlerInvoked := true } := by
  have hv : r.valid = false :=
    Bool.eq_false_iff.mpr fun hvt => hr ((valid_eq_true r).mp hvt)
  constructor
  · simp [PutRating, hv]
  · simp [app, ha, putRatingHandler, decodeBody, PutRating, Rating.valid, httpError]

/-- Claim C3: GetRating for a (game_id, user_id) pair with no stored rating
succeeds with the zero-value rating whose rating field is 0 and whose
GameID is the requested id. -/
theorem getRating_absent (store : Store) (g u : String)
    (h : ∀ r ∈ store, ¬(r.GameID = g ∧ r.UserID = u)) :
    GetRating store g u =
      (.ok { UserID := "", GameID := g, rating := 0 }, [.findOne g u]) := by
  have hf : findOne store g u = none :=
    List.find?_eq_none.mpr fun x hx hm => h x hx ((matchesKey_iff g u x).mp hm)
  simp [GetRating, hf]

/-- Claim C3 witness: a store holding only another user's rating of the
same game. -/
theorem getRating_absent_witness :
    GetRating [{ UserID := "u2", GameID := "g1", rating := 3 }] "g1" "u1" =
      (.ok { UserID := "", GameID := "g1", rating := 0 }, [.findOne "g1" "u1"]) :=
  getRating_absent [{ UserID := "u2", GameID := "g1", rating := 3 }] "g1" "u1" (by decide)

/-- Claim C6: when the verifier rejects the Authorization token, the
pipeline answers 403 Forbidden, no route handler runs, no store operation
is issued, and the store is untouched; this holds on every route. -/
theorem auth_failure_short_circuits (authenticate : String → Option User)
    (store : Store) (req : Request)
    (h : authenticate req.authorization = none) :
    app authenticate store req =
      { response := some { status := 403, contentType := "text/plain; charset=utf-8",
                           body := .text "Forbidden" },
        store := store, ops := [], handlerInvoked := false } := by
  simp [app, h, httpError]

/-- Claim C6 witness: a PUT request whose token the verifier rejects. -/
theorem auth_failure_short_circuits_witness :
    app (fun _ => none) [{ UserID := "u1", GameID := "g1", rating := 4 }]
        { route := .putRating "g1", authorization := "bad", body := .wellFormed 3 } =
      { response := some { status := 403, contentType := "text/plain; charset=utf-8",
                           body := .text "Forbidden" },
        store := [{ UserID := "u1", GameID := "g1", rating := 4 }],
        ops := [], handlerInvoked := false } :=
  auth_failure_short_circuits (fun _ => none)
    [{ UserID := "u1", GameID := "g1", rating := 4 }]
    { route := .putRating "g1", authorization := "bad", body := .wellFormed 3 } rfl

/-- Claim C2 witness: rating 7 on an empty store under a verifier that
accepts the token. -/
theorem putRating_invalid_no_write_witness :
    PutRating [] { UserID := "u1", GameID := "g1", rating := 7 } =
      (.error "Invalid rating update", []) ∧
    app (fun _ => some { ID := "u1", Email := "", Nickname := "", ProfilePhoto := "" }) []
        { route := .putRating "g1", authorization := "tok", body := .wellFormed 7 } =
      { response := some { status := 400, contentType := "text/plain; charset=utf-8",
                           body := .text "Error" },
        store := [], ops := [], handlerInvoked := true } :=
  putRating_invalid_no_write
    (fun _ => some { ID := "u1", Email := "", Nickname := "", ProfilePhoto := "" })
    [] { UserID := "u1", GameID := "g1", rating := 7 } "tok" "g1"
    { ID := "u1", Email := "", Nickname := "", ProfilePhoto := "" }
    (by decide) rfl

/-- Claim C4: from a store with at most one document per key, writing a
valid rating and reading it back yields exactly the written value; writing
a second valid value and reading again yields only the second value, the
store still holds at most one document for the pair, and per-key
uniqueness is preserved. -/
theorem put_get_upsert (store : Store) (g u : String) (n1 n2 : Int)
    (hU : keyUnique store) (_hne : n1 ≠ n2)
    (h1 : 1 ≤ n1 ∧ n1 ≤ 5) (h2 : 1 ≤ n2 ∧ n2 ≤ 5) :
    ∃ store1 store2,
      (PutRating store { UserID := u, GameID := g, rating := n1 }).1 = .ok store1 ∧
      (GetRating store1 g u).1 = .ok { UserID := u, GameID := g, rating := n1 } ∧
      (PutRating store1 { UserID := u, GameID := g, rating := n2 }).1 = .ok store2 ∧
      (GetRating store2 g u).1 = .ok { UserID := u, GameID := g, rating := n2 } ∧
      (store2.filter (matchesKey g u)).length ≤ 1 ∧
      keyUnique store2 := by
  have hv1 : Rating.valid { UserID := u, GameID := g, rating := n1 } = true :=
    (valid_eq_true _).mpr h1
  have hv2 : Rating.valid { UserID := u, GameID := g, rating := n2 } = true :=
    (valid_eq_true _).mpr h2
  have hm1 : matchesKey g u { UserID := u, GameID := g, rating := n1 } = true := by
    simp [matchesKey]
  have hm2 : matchesKey g u { UserID := u, GameID := g, rating := n2 } = true := by
    simp [matchesKey]
  refine ⟨replaceOne store g u { UserID := u, GameID := g, rating := n1 },
          replaceOne (replaceOne store g u { UserID := u, GameID := g, rating := n1 })
            g u { UserID := u, GameID := g, rating := n2 }, ?_, ?_, ?_, ?_, ?_, ?_⟩
  · simp [PutRating, hv1]
  · simp [GetRating, findOne_replaceOne_same store g u _ hm1]
  · simp [PutRating, hv2]
  · simp [GetRating, findOne_replaceOne_same _ g u _ hm2]
  · exact le_of_eq (count_replaceOne _ g u _ hm2
      (keyUnique_replaceOne store g u _ rfl rfl hU))
  · exact keyUnique_replaceOne _ g u _ rfl rfl
      (keyUnique_replaceOne store g u _ rfl rfl hU)

/-- Claim C4 witness: two writes of 3 then 5 for (g1, u1) on the empty
store. -/
theorem put_get_upsert_witness :
    ∃ store1 store2,
      (PutRating [] { UserID := "u1", GameID := "g1", rating := 3 }).1 = .ok store1 ∧
      (GetRating store1 "g1" "u1").1 = .ok { UserID := "u1", GameID := "g1", rating := 3 } ∧
      (PutRating store1 { UserID := "u1", GameID := "g1", rating := 5 }).1 = .ok store2 ∧
      (GetRating store2 "g1" "u1").1 = .ok { UserID := "u1", GameID := "g1", rating := 5 } ∧
      (store2.filter (matchesKey "g1" "u1")).length ≤ 1 ∧
      keyUnique store2 :=
  put_get_upsert [] "g1" "u1" 3 5 List.Pairwise.nil (by decide) (by decide) (by decide)

/-- Claim C5 counterexample: a request whose token the verifier rejects is
answered 403 by http.Error before ContentTypeMiddleware ever runs (mux
applies the middlewares in registration order and authentication comes
first), so the response's Content-Type is text/plain, not
application/json. -/
theorem contentType_not_json_on_auth_failure :
    (app (fun _ => none) []
        { route := .getRatings, authorization := "tok", body := .malformed }).response =
      some { status := 403, contentType := "text/plain; charset=utf-8",
             body := .text "Forbidden" } ∧
    "text/plain; charset=utf-8" ≠ "application/json" :=
  ⟨rfl, by decide⟩

/-- Claim C5 as amended: a response carries Content-Type application/json
exactly when it is a 200; every error response (403 from authentication,
400 from validation, 500 from the aggregation decode failure) is written
by http.Error, which sets Content-Type to text/plain — for the 403 because
the content-type middleware has not run yet, for the others because
http.Error overrides the header it had set. -/
theorem contentType_json_iff_status_200 (authenticate : String → Option User)
    (store : Store) (req : Request) (resp : Response)
    (h : (app authenticate store req).response = some resp) :
    resp.contentType = "application/json" ↔ resp.status = 200 := by
  unfold app at h
  rcases hA : authenticate req.authorization with _ | user
  all_goals rw [hA] at h
  · simp only [Option.some.injEq] at h
    subst h
    simp [httpError]
  · rcases req with ⟨route, token, body⟩
    cases route with
    | getRatings =>
        simp only [getRatingsHandler] at h
        rcases hG : GetAvgRatings store with ⟨res, ops⟩
        rw [hG] at h
        cases res with
        | error e =>
            simp only [Option.some.injEq] at h
            subst h
            simp [httpError]
        | ok ratings =>
            by_cases hlen : ratings.length = 0
            all_goals simp only [hlen, if_true, if_false, Option.some.injEq] at h
            all_goals subst h
            all_goals simp [jsonOk]
    | getRating id =>
        simp only [getRatingHandler] at h
        rcases getRating_isOk store id user.ID with ⟨r, hr⟩
        rw [hr] at h
        simp only [Option.some.injEq] at h
        subst h
        simp [jsonOk]
    | putRating id =>
        simp only [putRatingHandler] at h
        rcases hP : PutRating store
            { decodeBody body with GameID := id, UserID := user.ID } with ⟨res, ops⟩
        rw [hP] at h
        cases res with
        | error e =>
            simp only [Option.some.injEq] at h
            subst h
            simp [httpError]
        | ok store1 =>
            simp only [getRatingHandler] at h
            rcases getRating_isOk store1 id user.ID with ⟨r, hr⟩
            rw [hr] at h
            simp only [Option.some.injEq] at h
            subst h
            simp [jsonOk]

/-- Claim C5 witness: a successful GET of the averaged ratings on the
empty store, whose response is a 200 carrying application/json. -/
theorem contentType_json_iff_status_200_witness :
    ({ status := 200, contentType := "application/json",
       body := .jsonRatingList [] } : Response).contentType = "application/json" ↔
    ({ status := 200, contentType := "application/json",
       body := .jsonRatingList [] } : Response).status = 200 :=
  contentType_json_iff_status_200
    (fun _ => some { ID := "u1", Email := "", Nickname := "", ProfilePhoto := "" }) []
    { route := .getRatings, authorization := "tok", body := .malformed }
    { status := 200, contentType := "application/json", body := .jsonRatingList [] }
    rfl

/-- Claim C7 counterexample: a PUT with a malformed body from an
authenticated user on the empty store does not write the merged
zero-value rating the claim describes — PutRating rejects rating 0 as
invalid, the store stays empty (in particular it is not the one-document
store the claimed write would produce), and the response is a 400. -/
theorem malformed_put_writes_nothing :
    app (fun _ => some { ID := "u1", Email := "", Nickname := "", ProfilePhoto := "" }) []
        { route := .putRating "g1", authorization := "tok", body := .malformed } =
      { response := some { status := 400, contentType := "text/plain; charset=utf-8",
                           body := .text "Error" },
        store := [], ops := [], handlerInvoked := true } ∧
    ([] : Store) ≠ [{ UserID := "u1", GameID := "g1", rating := 0 }] :=
  ⟨rfl, by decide⟩

/-- Claim C7 as amended: a malformed PUT body has its decode error
discarded and the request proceeds to put_rating with the zero-value
rating merged with the route game_id and the authenticated user_id, but
that merged rating (rating 0) fails validation, so put_rating returns the
validation error without issuing any store operation: the request is
answered 400 and nothing is written. -/
theorem malformed_put_rejected (authenticate : String → Option User)
    (store : Store) (token id : String) (u : User)
    (h : authenticate token = some u) :
    PutRating store { UserID := u.ID, GameID := id, rating := 0 } =
      (.error "Invalid rating update", []) ∧
    app authenticate store { route := .putRating id, authorization := token, body := .malformed } =
      { response := some { status := 400, contentType := "text/plain; charset=utf-8",
                           body := .text "Error" },
        store := store, ops := [], handlerInvoked := true } := by
  constructor
  · rfl
  · simp [app, h, putRatingHandler, decodeBody, PutRating, Rating.valid, httpError]

/-- Claim C7 witness: malformed PUT body for game g1 by user u1. -/
theorem malformed_put_rejected_witness :
    PutRating [] { UserID := "u1", GameID := "g1", rating := 0 } =
      (.error "Invalid rating update", []) ∧
    app (fun _ => some { ID := "u1", Email := "", Nickname := "", ProfilePhoto := "" }) []
        { route := .putRating "g1", authorization := "tok", body := .malformed } =
      { response := some { status := 400, contentType := "text/plain; charset=utf-8",
                           body := .text "Error" },
        store := [], ops := [], handlerInvoked := true } :=
  malformed_put_rejected
    (fun _ => some { ID := "u1", Email := "", Nickname := "", ProfilePhoto := "" })
    [] "tok" "g1" { ID := "u1", Email := "", Nickname := "", ProfilePhoto := "" } rfl

/-- Claim C8: a successful PUT answers by re-fetching the now-current
rating: its response equals the response of a GET for the same game and
the same authenticated user run on the post-write store, whatever body
that GET carries. -/
theorem put_success_rereads (authenticate : String → Option User)
    (store : Store) (token id : String) (u : User) (n : Int) (b : RequestBody)
    (ha : authenticate token = some u) (hn : 1 ≤ n ∧ n ≤ 5) :
    (app authenticate store
        { route := .putRating id, authorization := token, body := .wellFormed n }).response =
      (app authenticate
          ((app authenticate store
              { route := .putRating id, authorization := token, body := .wellFormed n }).store)
          { route := .getRating id, authorization := token, body := b }).response := by
  have hv : Rating.valid { UserID := u.ID, GameID := id, rating := n } = true :=
    (valid_eq_true _).mpr hn
  simp [app, ha, putRatingHandler, decodeBody, PutRating, hv]

/-- Claim C8 witness: writing rating 4 for g1 as user u1 on the empty
store, compared with the subsequent GET. -/
theorem put_success_rereads_witness :
    (app (fun _ => some { ID := "u1", Email := "", Nickname := "", ProfilePhoto := "" }) []
        { route := .putRating "g1", authorization := "tok", body := .wellFormed 4 }).response =
      (app (fun _ => some { ID := "u1", Email := "", Nickname := "", ProfilePhoto := "" })
          ((app (fun _ => some { ID := "u1", Email := "", Nickname := "", ProfilePhoto := "" }) []
              { route := .putRating "g1", authorization := "tok", body := .wellFormed 4 }).store)
          { route := .getRating "g1", authorization := "tok", body := .malformed }).response :=
  put_success_rereads
    (fun _ => some { ID := "u1", Email := "", Nickname := "", ProfilePhoto := "" })
    [] "tok" "g1" { ID := "u1", Email := "", Nickname := "", ProfilePhoto := "" }
    4 .malformed rfl (by decide)

/-- Claim C10: the unchecked type assertion reading the authenticated User
back out of the request context never fails: every request that reaches a
route handler went through the authentication middleware, which stored a
User under the request-user key first, so the pipeline never produces the
none outcome that models a Go panic. -/
theorem context_user_assertion_safe (authenticate : String → Option User)
    (store : Store) (req : Request) :
    (app authenticate store req).response.isSome = true := by
  unfold app
  rcases hA : authenticate req.authorization with _ | user
  · simp
  · rcases req with ⟨route, token, body⟩
    cases route with
    | getRatings => simp
    | getRating id =>
        rcases getRating_isOk store id user.ID with ⟨r, hr⟩
        simp [getRatingHandler, hr]
    | putRating id =>
        simp only [putRatingHandler]
        rcases hP : PutRating store
            { decodeBody body with GameID := id, UserID := user.ID } with ⟨res, ops⟩
        cases res with
        | error e => simp
        | ok store1 =>
            rcases getRating_isOk store1 id user.ID with ⟨r, hr⟩
            simp [getRatingHandler, hr]

/-- Claim C9: Rating.valid is true exactly for ratings between 1 and 5
inclusive (the rating field is a Go int, so non-integral values cannot
inhabit it), and in particular 0 and 6 are invalid. -/
theorem valid_iff_between_one_and_five :
    (∀ r : Rating, r.valid = true ↔ 1 ≤ r.rating ∧ r.rating ≤ 5) ∧
    Rating.valid { UserID := "", GameID := "", rating := 0 } = false ∧
    Rating.valid { UserID := "", GameID := "", rating := 6 } = false :=
  ⟨valid_eq_true, rfl, rfl⟩

end Kajappka
